import Mathlib

/-!
Shallow embedding of the FlashFX canvas geometry engine:
`clampToCanvas`, `calculateResize` and the resize-commit pipeline from
`src/components/design-tool/EnhancedDesignElementComponent.tsx`, and
`detectSnaps` from `src/hooks/useSnapping.ts`.  Numbers are modelled as
exact rationals (the source uses JS doubles; all the claims concern exact
arithmetic).
-/

namespace FlashFX

/-- The fixed virtual canvas width (3840). -/
def CANVAS_WIDTH : ℚ := 3840

/-- The fixed virtual canvas height (2160). -/
def CANVAS_HEIGHT : ℚ := 2160

/-- `clampToCanvas` from `EnhancedDesignElementComponent.tsx` (and the
identical copy in `Canvas.tsx`):
`clampedX = Math.max(0, Math.min(canvasWidth - width, x))`,
`clampedY = Math.max(0, Math.min(canvasHeight - height, y))`. -/
def clampToCanvas (canvasW canvasH x y width height : ℚ) : ℚ × ℚ :=
  (max 0 (min (canvasW - width) x), max 0 (min (canvasH - height) y))

/-- The `resizeStart` snapshot captured on resize start: element width,
height, x, y at the moment the handle is grabbed. -/
structure Snapshot where
  width : ℚ
  height : ℚ
  elementX : ℚ
  elementY : ℚ
deriving DecidableEq, Repr

/-- One of the eight resize handles. -/
inductive Handle where
  | nw | ne | sw | se | n | s | e | w
deriving DecidableEq, Repr

/-- The record returned by `calculateResize`. -/
structure ResizeResult where
  newWidth : ℚ
  newHeight : ℚ
  newX : ℚ
  newY : ℚ
deriving DecidableEq, Repr

/-- `calculateResize` from `EnhancedDesignElementComponent.tsx`, lines
126–226, transcribed case by case.  `shiftKey` is the aspect-lock flag. -/
def calculateResize (rs : Snapshot) (deltaX deltaY : ℚ) (handle : Handle)
    (shiftKey : Bool) : ResizeResult :=
  let aspectRatio := rs.width / rs.height
  match handle with
  | .se =>
      let newWidth := max 10 (rs.width + deltaX)
      let newHeight := max 10 (rs.height + deltaY)
      if shiftKey then
        let widthRatio := newWidth / rs.width
        let heightRatio := newHeight / rs.height
        let ratio := max widthRatio heightRatio
        ⟨rs.width * ratio, rs.height * ratio, rs.elementX, rs.elementY⟩
      else
        ⟨newWidth, newHeight, rs.elementX, rs.elementY⟩
  | .sw =>
      let newWidth := max 10 (rs.width - deltaX)
      let newHeight := max 10 (rs.height + deltaY)
      if shiftKey then
        let widthRatio := newWidth / rs.width
        let heightRatio := newHeight / rs.height
        let ratio := max widthRatio heightRatio
        let w' := rs.width * ratio
        ⟨w', rs.height * ratio, rs.elementX + (rs.width - w'), rs.elementY⟩
      else
        ⟨newWidth, newHeight, rs.elementX + (rs.width - newWidth), rs.elementY⟩
  | .ne =>
      let newWidth := max 10 (rs.width + deltaX)
      let newHeight := max 10 (rs.height - deltaY)
      if shiftKey then
        let widthRatio := newWidth / rs.width
        let heightRatio := newHeight / rs.height
        let ratio := max widthRatio heightRatio
        let h' := rs.height * ratio
        ⟨rs.width * ratio, h', rs.elementX, rs.elementY + (rs.height - h')⟩
      else
        ⟨newWidth, newHeight, rs.elementX, rs.elementY + (rs.height - newHeight)⟩
  | .nw =>
      let newWidth := max 10 (rs.width - deltaX)
      let newHeight := max 10 (rs.height - deltaY)
      if shiftKey then
        let widthRatio := newWidth / rs.width
        let heightRatio := newHeight / rs.height
        let ratio := max widthRatio heightRatio
        let w' := rs.width * ratio
        let h' := rs.height * ratio
        ⟨w', h', rs.elementX + (rs.width - w'), rs.elementY + (rs.height - h')⟩
      else
        ⟨newWidth, newHeight, rs.elementX + (rs.width - newWidth),
          rs.elementY + (rs.height - newHeight)⟩
  | .n =>
      let newHeight := max 10 (rs.height - deltaY)
      let newY := rs.elementY + (rs.height - newHeight)
      if shiftKey then
        let newWidth := newHeight * aspectRatio
        ⟨newWidth, newHeight, rs.elementX + (rs.width - newWidth) / 2, newY⟩
      else
        ⟨rs.width, newHeight, rs.elementX, newY⟩
  | .s =>
      let newHeight := max 10 (rs.height + deltaY)
      if shiftKey then
        let newWidth := newHeight * aspectRatio
        ⟨newWidth, newHeight, rs.elementX + (rs.width - newWidth) / 2, rs.elementY⟩
      else
        ⟨rs.width, newHeight, rs.elementX, rs.elementY⟩
  | .e =>
      let newWidth := max 10 (rs.width + deltaX)
      if shiftKey then
        let newHeight := newWidth / aspectRatio
        ⟨newWidth, newHeight, rs.elementX, rs.elementY + (rs.height - newHeight) / 2⟩
      else
        ⟨newWidth, rs.height, rs.elementX, rs.elementY⟩
  | .w =>
      let newWidth := max 10 (rs.width - deltaX)
      let newX := rs.elementX + (rs.width - newWidth)
      if shiftKey then
        let newHeight := newWidth / aspectRatio
        ⟨newWidth, newHeight, newX, rs.elementY + (rs.height - newHeight) / 2⟩
      else
        ⟨newWidth, rs.height, newX, rs.elementY⟩

/-- The exact list of divisors `calculateResize` evaluates, in program
order: `aspectRatio = resizeStart.width / resizeStart.height` is computed
unconditionally (line 137), and with aspect lock the corner branches
compute `widthRatio = newWidth / resizeStart.width` and
`heightRatio = newHeight / resizeStart.height`, while the `e`/`w`
branches divide by `aspectRatio` itself. -/
def resizeDivisors (rs : Snapshot) (handle : Handle) (shiftKey : Bool) : List ℚ :=
  rs.height ::
    (if shiftKey then
      match handle with
      | .se | .sw | .ne | .nw => [rs.width, rs.height]
      | .e | .w => [rs.width / rs.height]
      | .n | .s => []
    else [])

/-- A design element as consumed by the snapping hook: id, position, size,
visibility (`src/hooks/useSnapping.ts`). -/
structure Elem where
  id : String
  x : ℚ
  y : ℚ
  width : ℚ
  height : ℚ
  visible : Bool
deriving DecidableEq, Repr

/-- Derived bounds of an element (`getElementBounds`). -/
structure Bounds where
  left : ℚ
  right : ℚ
  top : ℚ
  bottom : ℚ
  centerX : ℚ
  centerY : ℚ
deriving DecidableEq, Repr

/-- `getElementBounds` from `useSnapping.ts`. -/
def getElementBounds (el : Elem) : Bounds :=
  ⟨el.x, el.x + el.width, el.y, el.y + el.height,
    el.x + el.width / 2, el.y + el.height / 2⟩

/-- Guide orientation. -/
inductive GuideType where
  | vertical | horizontal
deriving DecidableEq, Repr

/-- A snap guide as produced by `detectSnaps`. -/
structure SnapGuide where
  id : String
  type : GuideType
  position : ℚ
  color : String
deriving DecidableEq, Repr

/-- Result of `detectSnaps`: optionally corrected x and y, plus guides. -/
structure SnapResult where
  x : Option ℚ
  y : Option ℚ
  guides : List SnapGuide
deriving DecidableEq, Repr

/-- The snap threshold constant (8 canvas units at zoom 1). -/
def SNAP_THRESHOLD : ℚ := 8

/-- The effective threshold `SNAP_THRESHOLD / zoom` used by `detectSnaps`. -/
def snapThreshold (zoom : ℚ) : ℚ := SNAP_THRESHOLD / zoom

/-- Accumulator threaded through the per-sibling loop of `detectSnaps`:
the current `snappedX`, `snappedY` and the guide list. -/
structure SnapAcc where
  sx : ℚ
  sy : ℚ
  guides : List SnapGuide
deriving DecidableEq, Repr

/-- Hex color used for edge-alignment guides. -/
def edgeColor : String := "#FF8C00"

/-- Hex color used for center-alignment guides. -/
def centerColor : String := "#FFD700"

/-- The Y-axis (horizontal-guide) if/else-if chain of one sibling
iteration of `detectSnaps` (`useSnapping.ts` lines 153–208), with
`cur.top = sy`, `cur.bottom = sy + movingH` and
`cur.centerY = sy + movingH / 2` derived from the current snapped
position: the first matching candidate in program order — top-to-top,
bottom-to-bottom, top-to-bottom, bottom-to-top, then center — yields the
snapped y and its guide; otherwise `none`. -/
def siblingSnapY (movingH threshold sy : ℚ) (idx : ℕ) (el : Elem) :
    Option (ℚ × SnapGuide) :=
  let bounds := getElementBounds el
  let tag := "element-" ++ toString idx
  if |sy - bounds.top| < threshold then
    some (bounds.top, ⟨tag ++ "-top", .horizontal, bounds.top, edgeColor⟩)
  else if |sy + movingH - bounds.bottom| < threshold then
    some (bounds.bottom - movingH,
      ⟨tag ++ "-bottom", .horizontal, bounds.bottom, edgeColor⟩)
  else if |sy - bounds.bottom| < threshold then
    some (bounds.bottom,
      ⟨tag ++ "-stack-bottom", .horizontal, bounds.bottom, edgeColor⟩)
  else if |sy + movingH - bounds.top| < threshold then
    some (bounds.top - movingH,
      ⟨tag ++ "-stack-top", .horizontal, bounds.top, edgeColor⟩)
  else if |sy + movingH / 2 - bounds.centerY| < threshold then
    some (bounds.centerY - movingH / 2,
      ⟨tag ++ "-center-y", .horizontal, bounds.centerY, centerColor⟩)
  else none

/-- The X-axis (vertical-guide) if/else-if chain of one sibling iteration
of `detectSnaps` (`useSnapping.ts` lines 210–265): left-to-left,
right-to-right, left-to-right, right-to-left, then center. -/
def siblingSnapX (movingW threshold sx : ℚ) (idx : ℕ) (el : Elem) :
    Option (ℚ × SnapGuide) :=
  let bounds := getElementBounds el
  let tag := "element-" ++ toString idx
  if |sx - bounds.left| < threshold then
    some (bounds.left, ⟨tag ++ "-left", .vertical, bounds.left, edgeColor⟩)
  else if |sx + movingW - bounds.right| < threshold then
    some (bounds.right - movingW,
      ⟨tag ++ "-right", .vertical, bounds.right, edgeColor⟩)
  else if |sx - bounds.right| < threshold then
    some (bounds.right,
      ⟨tag ++ "-side-right", .vertical, bounds.right, edgeColor⟩)
  else if |sx + movingW - bounds.left| < threshold then
    some (bounds.left - movingW,
      ⟨tag ++ "-side-left", .vertical, bounds.left, edgeColor⟩)
  else if |sx + movingW / 2 - bounds.centerX| < threshold then
    some (bounds.centerX - movingW / 2,
      ⟨tag ++ "-center-x", .vertical, bounds.centerX, centerColor⟩)
  else none

/-- The guide contributed by one axis chain (empty when no candidate
matched). -/
def optGuide (o : Option (ℚ × SnapGuide)) : List SnapGuide :=
  o.elim [] fun r => [r.2]

/-- One iteration of the `otherElements.forEach((element, index) => ...)`
loop in `detectSnaps` (`useSnapping.ts` lines 140–266): both axis chains
read the moving bounds recomputed from the current snapped position; the
Y guide is pushed before the X guide, matching the source's push order. -/
def siblingStep (movingW movingH threshold : ℚ) (acc : SnapAcc)
    (idxEl : ℕ × Elem) : SnapAcc :=
  let oy := siblingSnapY movingH threshold acc.sy idxEl.1 idxEl.2
  let ox := siblingSnapX movingW threshold acc.sx idxEl.1 idxEl.2
  ⟨(ox.map Prod.fst).getD acc.sx, (oy.map Prod.fst).getD acc.sy,
    acc.guides ++ optGuide oy ++ optGuide ox⟩

/-- `detectSnaps` from `useSnapping.ts`: canvas-edge checks (when a canvas
size is provided), canvas-center checks, then the per-sibling loop over
the visible siblings (self excluded).  The canvas checks all test against
the bounds computed from the raw `(newX, newY)`; the sibling loop tests
against bounds recomputed from the running snapped position. -/
def detectSnaps (elements : List Elem) (canvasCenter : ℚ × ℚ) (zoom : ℚ)
    (canvasSize : Option (ℚ × ℚ)) (movingElement : Elem) (newX newY : ℚ)
    (snapEnabled : Bool) : SnapResult :=
  if !snapEnabled then ⟨none, none, []⟩
  else
    let mw := movingElement.width
    let mh := movingElement.height
    let mb : Bounds := ⟨newX, newX + mw, newY, newY + mh, newX + mw / 2, newY + mh / 2⟩
    let threshold := snapThreshold zoom
    let edgeX : ℚ × List SnapGuide :=
      match canvasSize with
      | none => (newX, [])
      | some (cw, _) =>
          if |mb.left| < threshold then
            ((0 : ℚ), [⟨"canvas-left", .vertical, 0, edgeColor⟩])
          else if |mb.right - cw| < threshold then
            (cw - mw, [⟨"canvas-right", .vertical, cw, edgeColor⟩])
          else (newX, [])
    let sx₀ := edgeX.1
    let gx₀ := edgeX.2
    let edgeY : ℚ × List SnapGuide :=
      match canvasSize with
      | none => (newY, gx₀)
      | some (_, ch) =>
          if |mb.top| < threshold then
            ((0 : ℚ), gx₀ ++ [⟨"canvas-top", .horizontal, 0, edgeColor⟩])
          else if |mb.bottom - ch| < threshold then
            (ch - mh, gx₀ ++ [⟨"canvas-bottom", .horizontal, ch, edgeColor⟩])
          else (newY, gx₀)
    let sy₀ := edgeY.1
    let g₀ := edgeY.2
    let (sx₁, g₁) :=
      if |mb.centerX - canvasCenter.1| < threshold then
        (canvasCenter.1 - mw / 2,
          g₀ ++ [⟨"canvas-center-x", .vertical, canvasCenter.1, centerColor⟩])
      else (sx₀, g₀)
    let (sy₁, g₂) :=
      if |mb.centerY - canvasCenter.2| < threshold then
        (canvasCenter.2 - mh / 2,
          g₁ ++ [⟨"canvas-center-y", .horizontal, canvasCenter.2, centerColor⟩])
      else (sy₀, g₁)
    let otherElements := elements.filter fun el =>
      el.id ≠ movingElement.id && el.visible
    let final := otherElements.enum.foldl (siblingStep mw mh threshold) ⟨sx₁, sy₁, g₂⟩
    ⟨if final.sx ≠ newX then some final.sx else none,
      if final.sy ≠ newY then some final.sy else none,
      final.guides⟩

/-- The drag branch of `handleGlobalMouseMove` (lines 228–273), with no
grid snap callback installed (the default): scale the client delta by
zoom, clamp the raw position to the canvas, run `detectSnaps` on the
clamped position, and commit the snapped coordinates when present. -/
def dragMove (canvasW canvasH : ℚ) (elements : List Elem)
    (canvasCenter : ℚ × ℚ) (zoom : ℚ) (snapEnabled : Bool) (el : Elem)
    (startElX startElY clientDX clientDY : ℚ) : ℚ × ℚ :=
  let deltaX := clientDX / zoom
  let deltaY := clientDY / zoom
  let rawX := startElX + deltaX
  let rawY := startElY + deltaY
  let clamped := clampToCanvas canvasW canvasH rawX rawY el.width el.height
  let snapResult := detectSnaps elements canvasCenter zoom
    (some (canvasW, canvasH)) el clamped.1 clamped.2 snapEnabled
  (snapResult.x.getD clamped.1, snapResult.y.getD clamped.2)

/-- The committed element geometry after a resize mouse-move. -/
structure CommitResult where
  width : ℚ
  height : ℚ
  x : ℚ
  y : ℚ
deriving DecidableEq, Repr

/-- The resize branch of `handleGlobalMouseMove` (lines 276–308), with no
grid-size snap callback installed: scale the client delta by zoom, run
`calculateResize`, then clamp width to `canvasWidth - newX` and height to
`canvasHeight - newY` (x and y are committed unclamped). -/
def resizeCommit (canvasW canvasH : ℚ) (rs : Snapshot)
    (clientDX clientDY zoom : ℚ) (handle : Handle) (shiftKey : Bool) :
    CommitResult :=
  let deltaX := clientDX / zoom
  let deltaY := clientDY / zoom
  let r := calculateResize rs deltaX deltaY handle shiftKey
  let maxWidth := canvasW - r.newX
  let maxHeight := canvasH - r.newY
  ⟨min r.newWidth maxWidth, min r.newHeight maxHeight, r.newX, r.newY⟩

/-- Number of horizontal (Y-axis) guides in a guide list. -/
def countHoriz (gs : List SnapGuide) : ℕ :=
  (gs.filter fun g => g.type = GuideType.horizontal).length

/-- Number of vertical (X-axis) guides in a guide list. -/
def countVert (gs : List SnapGuide) : ℕ :=
  (gs.filter fun g => g.type = GuideType.vertical).length

lemma clampX_nonneg (cw ch x y w h : ℚ) : 0 ≤ (clampToCanvas cw ch x y w h).1 :=
  le_max_left 0 _

lemma clampY_nonneg (cw ch x y w h : ℚ) : 0 ≤ (clampToCanvas cw ch x y w h).2 :=
  le_max_left 0 _

lemma clampX_le (cw ch x y w h : ℚ) (hw : w ≤ cw) :
    (clampToCanvas cw ch x y w h).1 ≤ cw - w :=
  max_le (by linarith) (min_le_left _ _)

lemma clampY_le (cw ch x y w h : ℚ) (hh : h ≤ ch) :
    (clampToCanvas cw ch x y w h).2 ≤ ch - h :=
  max_le (by linarith) (min_le_left _ _)

lemma clampX_pin (cw ch x y w h : ℚ) (hw : cw < w) :
    (clampToCanvas cw ch x y w h).1 = 0 :=
  max_eq_left (le_of_lt (lt_of_le_of_lt (min_le_left _ _) (by linarith)))

lemma clampY_pin (cw ch x y w h : ℚ) (hh : ch < h) :
    (clampToCanvas cw ch x y w h).2 = 0 :=
  max_eq_left (le_of_lt (lt_of_le_of_lt (min_le_left _ _) (by linarith)))

lemma resizeCommit_right_le (cw ch : ℚ) (rs : Snapshot) (dx dy zoom : ℚ)
    (handle : Handle) (shift : Bool) :
    (resizeCommit cw ch rs dx dy zoom handle shift).x +
      (resizeCommit cw ch rs dx dy zoom handle shift).width ≤ cw := by
  simp only [resizeCommit]
  have h := min_le_right (calculateResize rs (dx / zoom) (dy / zoom) handle shift).newWidth
    (cw - (calculateResize rs (dx / zoom) (dy / zoom) handle shift).newX)
  linarith

lemma resizeCommit_bottom_le (cw ch : ℚ) (rs : Snapshot) (dx dy zoom : ℚ)
    (handle : Handle) (shift : Bool) :
    (resizeCommit cw ch rs dx dy zoom handle shift).y +
      (resizeCommit cw ch rs dx dy zoom handle shift).height ≤ ch := by
  simp only [resizeCommit]
  have h := min_le_right (calculateResize rs (dx / zoom) (dy / zoom) handle shift).newHeight
    (ch - (calculateResize rs (dx / zoom) (dy / zoom) handle shift).newY)
  linarith

lemma detectSnaps_disabled (elems : List Elem) (cc : ℚ × ℚ) (zoom : ℚ)
    (cs : Option (ℚ × ℚ)) (el : Elem) (nx ny : ℚ) :
    detectSnaps elems cc zoom cs el nx ny false = ⟨none, none, []⟩ := by
  simp [detectSnaps]

lemma dragMove_noSnap (cw ch : ℚ) (elems : List Elem) (cc : ℚ × ℚ)
    (zoom : ℚ) (el : Elem) (sx sy dx dy : ℚ) :
    dragMove cw ch elems cc zoom false el sx sy dx dy =
      clampToCanvas cw ch (sx + dx / zoom) (sy + dy / zoom) el.width el.height := by
  simp [dragMove, detectSnaps_disabled]

end FlashFX

open FlashFX

/-- C4: the canvas clamp returns `x' = max(0, min(canvasWidth − width, x))`
and `y' = max(0, min(canvasHeight − height, y))`; for any pre-clamp input,
post-clamp `x' ∈ [0, canvasWidth−width]` and `y' ∈ [0, canvasHeight−height]`
when the element fits the canvas, and when width or height alone exceeds
the canvas the element is pinned to 0 on that axis. -/
theorem C4_clamp_formula_and_range (cw ch x y w h : ℚ) :
    clampToCanvas cw ch x y w h =
      (max 0 (min (cw - w) x), max 0 (min (ch - h) y)) ∧
    (w ≤ cw → 0 ≤ (clampToCanvas cw ch x y w h).1 ∧
      (clampToCanvas cw ch x y w h).1 ≤ cw - w) ∧
    (h ≤ ch → 0 ≤ (clampToCanvas cw ch x y w h).2 ∧
      (clampToCanvas cw ch x y w h).2 ≤ ch - h) ∧
    (cw < w → (clampToCanvas cw ch x y w h).1 = 0) ∧
    (ch < h → (clampToCanvas cw ch x y w h).2 = 0) :=
  ⟨rfl,
    fun hw => ⟨clampX_nonneg cw ch x y w h, clampX_le cw ch x y w h hw⟩,
    fun hh => ⟨clampY_nonneg cw ch x y w h, clampY_le cw ch x y w h hh⟩,
    fun hw => clampX_pin cw ch x y w h hw,
    fun hh => clampY_pin cw ch x y w h hh⟩

/-- Witness for C4 at concrete inputs: an in-range element dragged far right
is clamped into `[0, 3740]`, and a 4000-wide element is pinned to `x = 0`. -/
theorem C4_clamp_formula_and_range_witness :
    (0 ≤ (clampToCanvas 3840 2160 5000 (-77) 100 50).1 ∧
      (clampToCanvas 3840 2160 5000 (-77) 100 50).1 ≤ 3840 - 100) ∧
    (clampToCanvas 3840 2160 5000 (-77) 4000 50).1 = 0 :=
  ⟨(C4_clamp_formula_and_range 3840 2160 5000 (-77) 100 50).2.1 (by norm_num),
    (C4_clamp_formula_and_range 3840 2160 5000 (-77) 4000 50).2.2.2.1 (by norm_num)⟩

/-- C6: without aspect lock every corner handle keeps the opposite corner
anchored and every edge handle keeps the opposite edge anchored (with
position and the untouched dimension unchanged where the code leaves
them), and the two concrete spec scenarios hold: an se-resize of
(0,0,100,100) by (50,20) gives (150,120,0,0), and an nw-resize of
(100,100,100,100) by (−20,−10) gives (120,110,80,90). -/
theorem C6_anchors_and_scenarios :
    (∀ (rs : Snapshot) (dx dy : ℚ),
      (calculateResize rs dx dy .nw false).newX +
          (calculateResize rs dx dy .nw false).newWidth =
        rs.elementX + rs.width ∧
      (calculateResize rs dx dy .nw false).newY +
          (calculateResize rs dx dy .nw false).newHeight =
        rs.elementY + rs.height) ∧
    (∀ (rs : Snapshot) (dx dy : ℚ),
      (calculateResize rs dx dy .ne false).newX = rs.elementX ∧
      (calculateResize rs dx dy .ne false).newY +
          (calculateResize rs dx dy .ne false).newHeight =
        rs.elementY + rs.height) ∧
    (∀ (rs : Snapshot) (dx dy : ℚ),
      (calculateResize rs dx dy .sw false).newX +
          (calculateResize rs dx dy .sw false).newWidth =
        rs.elementX + rs.width ∧
      (calculateResize rs dx dy .sw false).newY = rs.elementY) ∧
    (∀ (rs : Snapshot) (dx dy : ℚ),
      (calculateResize rs dx dy .se false).newX = rs.elementX ∧
      (calculateResize rs dx dy .se false).newY = rs.elementY) ∧
    (∀ (rs : Snapshot) (dx dy : ℚ),
      (calculateResize rs dx dy .n false).newY +
          (calculateResize rs dx dy .n false).newHeight =
        rs.elementY + rs.height ∧
      (calculateResize rs dx dy .n false).newX = rs.elementX ∧
      (calculateResize rs dx dy .n false).newWidth = rs.width) ∧
    (∀ (rs : Snapshot) (dx dy : ℚ),
      (calculateResize rs dx dy .s false).newY = rs.elementY ∧
      (calculateResize rs dx dy .s false).newX = rs.elementX ∧
      (calculateResize rs dx dy .s false).newWidth = rs.width) ∧
    (∀ (rs : Snapshot) (dx dy : ℚ),
      (calculateResize rs dx dy .e false).newX = rs.elementX ∧
      (calculateResize rs dx dy .e false).newY = rs.elementY ∧
      (calculateResize rs dx dy .e false).newHeight = rs.height) ∧
    (∀ (rs : Snapshot) (dx dy : ℚ),
      (calculateResize rs dx dy .w false).newX +
          (calculateResize rs dx dy .w false).newWidth =
        rs.elementX + rs.width ∧
      (calculateResize rs dx dy .w false).newY = rs.elementY ∧
      (calculateResize rs dx dy .w false).newHeight = rs.height) ∧
    calculateResize ⟨100, 100, 0, 0⟩ 50 20 .se false = ⟨150, 120, 0, 0⟩ ∧
    calculateResize ⟨100, 100, 100, 100⟩ (-20) (-10) .nw false =
      ⟨120, 110, 80, 90⟩ := by
  refine ⟨?_, ?_, ?_, ?_, ?_, ?_, ?_, ?_, ?_, ?_⟩
  on_goal 9 => norm_num [calculateResize]
  on_goal 9 => norm_num [calculateResize]
  all_goals intro rs dx dy
  all_goals simp only [calculateResize, Bool.false_eq_true, if_false]
  all_goals repeat' apply And.intro
  all_goals first | rfl | ring_nf

/-- C10: after every resize commit the committed element never extends past
the right or bottom canvas edge: the committed width is exactly
`min(newWidth, canvasWidth − newX)` and height `min(newHeight,
canvasHeight − newY)`, so `x + width ≤ canvasWidth` and
`y + height ≤ canvasHeight` for every handle, delta, zoom and lock flag;
and this clamp can undercut the 10-unit floor (concretely an e-resize at
x = 3835 commits width 5). -/
theorem C10_resize_commit_bounds (cw ch : ℚ) (rs : Snapshot)
    (dx dy zoom : ℚ) (handle : Handle) (shift : Bool) :
    (resizeCommit cw ch rs dx dy zoom handle shift).x +
        (resizeCommit cw ch rs dx dy zoom handle shift).width ≤ cw ∧
    (resizeCommit cw ch rs dx dy zoom handle shift).y +
        (resizeCommit cw ch rs dx dy zoom handle shift).height ≤ ch ∧
    (resizeCommit cw ch rs dx dy zoom handle shift).width =
      min (calculateResize rs (dx / zoom) (dy / zoom) handle shift).newWidth
        (cw - (calculateResize rs (dx / zoom) (dy / zoom) handle shift).newX) ∧
    (resizeCommit cw ch rs dx dy zoom handle shift).height =
      min (calculateResize rs (dx / zoom) (dy / zoom) handle shift).newHeight
        (ch - (calculateResize rs (dx / zoom) (dy / zoom) handle shift).newY) ∧
    (resizeCommit CANVAS_WIDTH CANVAS_HEIGHT ⟨100, 100, 3835, 0⟩ 0 0 1
        .e false).width = 5 ∧ (5 : ℚ) < 10 :=
  ⟨resizeCommit_right_le cw ch rs dx dy zoom handle shift,
    resizeCommit_bottom_le cw ch rs dx dy zoom handle shift,
    rfl, rfl,
    by norm_num [resizeCommit, calculateResize, CANVAS_WIDTH, CANVAS_HEIGHT],
    by norm_num⟩

/-- Counterexample to C1: a single resize commit (nw handle, pointer delta
(−200, 0), zoom 1, no aspect lock) on an element at (100, 100) of size
100×100 commits x = −100 < 0, so the invariant `0 ≤ left` fails after an
interactive operation: the resize path never re-clamps x and y. -/
theorem C1_counterexample_resize_negative_left :
    resizeCommit CANVAS_WIDTH CANVAS_HEIGHT ⟨100, 100, 100, 100⟩ (-200) 0 1
        .nw false = ⟨300, 100, -100, 100⟩ ∧
    ¬ (0 ≤ (resizeCommit CANVAS_WIDTH CANVAS_HEIGHT ⟨100, 100, 100, 100⟩
        (-200) 0 1 .nw false).x) := by
  constructor
  · norm_num [resizeCommit, calculateResize, CANVAS_WIDTH, CANVAS_HEIGHT]
  · norm_num [resizeCommit, calculateResize, CANVAS_WIDTH, CANVAS_HEIGHT]

/-- C1 amended: on every drag-move the canvas clamp is applied to the raw
dragged position before snap adjustment, so a drag-move with snapping
disabled (hence no snap adjustment) leaves an element that fits the
canvas fully inside it; a resize commit clamps only width and height, so
after a resize only `right ≤ canvasWidth` and `bottom ≤ canvasHeight` are
guaranteed (left/top may be negative, and snap adjustments applied after
the drag clamp may also move the element out). -/
theorem C1_clamp_before_snap (cw ch : ℚ) (elems : List Elem)
    (cc : ℚ × ℚ) (zoom : ℚ) (el : Elem) (sx sy dx dy : ℚ)
    (rs : Snapshot) (rdx rdy rzoom : ℚ) (handle : Handle) (shift : Bool)
    (hw : el.width ≤ cw) (hh : el.height ≤ ch) :
    (0 ≤ (dragMove cw ch elems cc zoom false el sx sy dx dy).1 ∧
      (dragMove cw ch elems cc zoom false el sx sy dx dy).1 + el.width ≤ cw ∧
      0 ≤ (dragMove cw ch elems cc zoom false el sx sy dx dy).2 ∧
      (dragMove cw ch elems cc zoom false el sx sy dx dy).2 + el.height ≤ ch) ∧
    ((resizeCommit cw ch rs rdx rdy rzoom handle shift).x +
        (resizeCommit cw ch rs rdx rdy rzoom handle shift).width ≤ cw ∧
      (resizeCommit cw ch rs rdx rdy rzoom handle shift).y +
        (resizeCommit cw ch rs rdx rdy rzoom handle shift).height ≤ ch) := by
  rw [dragMove_noSnap]
  refine ⟨⟨clampX_nonneg _ _ _ _ _ _, ?_, clampY_nonneg _ _ _ _ _ _, ?_⟩,
    resizeCommit_right_le cw ch rs rdx rdy rzoom handle shift,
    resizeCommit_bottom_le cw ch rs rdx rdy rzoom handle shift⟩
  · have := clampX_le cw ch (sx + dx / zoom) (sy + dy / zoom) el.width el.height hw
    linarith
  · have := clampY_le cw ch (sx + dx / zoom) (sy + dy / zoom) el.width el.height hh
    linarith

/-- Witness for the amended C1 at a concrete drag and resize. -/
theorem C1_clamp_before_snap_witness :
    (0 ≤ (dragMove 3840 2160 [] (1920, 1080) 1 false
        ⟨"m", 0, 0, 100, 100, true⟩ 0 0 (-500) 7000).1 ∧
      (dragMove 3840 2160 [] (1920, 1080) 1 false
        ⟨"m", 0, 0, 100, 100, true⟩ 0 0 (-500) 7000).1 + 100 ≤ 3840 ∧
      0 ≤ (dragMove 3840 2160 [] (1920, 1080) 1 false
        ⟨"m", 0, 0, 100, 100, true⟩ 0 0 (-500) 7000).2 ∧
      (dragMove 3840 2160 [] (1920, 1080) 1 false
        ⟨"m", 0, 0, 100, 100, true⟩ 0 0 (-500) 7000).2 + 100 ≤ 2160) ∧
    ((resizeCommit 3840 2160 ⟨100, 100, 100, 100⟩ (-200) 0 1 .nw false).x +
        (resizeCommit 3840 2160 ⟨100, 100, 100, 100⟩ (-200) 0 1 .nw false).width
          ≤ 3840 ∧
      (resizeCommit 3840 2160 ⟨100, 100, 100, 100⟩ (-200) 0 1 .nw false).y +
        (resizeCommit 3840 2160 ⟨100, 100, 100, 100⟩ (-200) 0 1 .nw false).height
          ≤ 2160) :=
  C1_clamp_before_snap 3840 2160 [] (1920, 1080) 1
    ⟨"m", 0, 0, 100, 100, true⟩ 0 0 (-500) 7000
    ⟨100, 100, 100, 100⟩ (-200) 0 1 .nw false (by norm_num) (by norm_num)

/-- C5: with aspect lock, for every handle and delta and positive original
dimensions, the resulting width/height ratio equals the original
width/height ratio exactly (stated cross-multiplied:
`newWidth * height = newHeight * width`). -/
theorem C5_aspect_lock_preserves_ratio (rs : Snapshot) (dx dy : ℚ)
    (handle : Handle) (hw : 0 < rs.width) (hh : 0 < rs.height) :
    (calculateResize rs dx dy handle true).newWidth * rs.height =
      (calculateResize rs dx dy handle true).newHeight * rs.width := by
  have hw' : rs.width ≠ 0 := ne_of_gt hw
  have hh' : rs.height ≠ 0 := ne_of_gt hh
  cases handle <;> simp only [calculateResize, if_true]
  case nw | ne | sw | se => ring
  case n | s => field_simp
  case e | w =>
    rw [div_div_eq_mul_div, div_mul_cancel₀]
    exact hw'

/-- Witness for C5: an e-handle lock-resize of a 100×50 element by dx = 20
keeps the 2:1 ratio. -/
theorem C5_aspect_lock_preserves_ratio_witness :
    (calculateResize ⟨100, 50, 0, 0⟩ 20 0 .e true).newWidth * 50 =
      (calculateResize ⟨100, 50, 0, 0⟩ 20 0 .e true).newHeight * 100 :=
  C5_aspect_lock_preserves_ratio ⟨100, 50, 0, 0⟩ 20 0 .e
    (by norm_num) (by norm_num)

/-- Counterexample to C7: the divisors of `calculateResize` are the raw
snapshot dimensions, not floored values — `aspectRatio` divides by
`resizeStart.height` unconditionally before any floor is applied, so a
snapshot of height 0 makes a divisor zero. -/
theorem C7_counterexample_zero_divisor :
    (0 : ℚ) ∈ resizeDivisors ⟨100, 0, 0, 0⟩ .se false := by
  simp [resizeDivisors]

/-- C7 amended: the divisors used by `calculateResize` (the snapshot's
original width and height, and for locked edge handles their quotient)
are nonzero whenever the snapshot's width and height are nonzero; the
10-unit minimum-size floor applies to the outputs, not to these divisors,
so it is the snapshot dimensions being nonzero — not the floor — that
rules out division by zero. -/
theorem C7_divisors_nonzero (rs : Snapshot) (handle : Handle) (shift : Bool)
    (hw : rs.width ≠ 0) (hh : rs.height ≠ 0) :
    ∀ q ∈ resizeDivisors rs handle shift, q ≠ 0 := by
  intro q hq
  cases shift <;> cases handle <;>
    simp only [resizeDivisors, if_true, if_false, Bool.false_eq_true,
      List.mem_cons, List.mem_singleton, List.not_mem_nil, or_false] at hq
  all_goals rcases hq with h | h | h <;> try subst h
  all_goals first
  | exact hh
  | exact hw
  | exact div_ne_zero hw hh

/-- Witness for the amended C7: both divisors of an aspect-locked e-handle
resize of a 100×50 snapshot — the raw height 50 and the aspect ratio
100/50 — are nonzero. -/
theorem C7_divisors_nonzero_witness :
    (50 : ℚ) ≠ 0 ∧ (100 / 50 : ℚ) ≠ 0 :=
  ⟨C7_divisors_nonzero ⟨100, 50, 0, 0⟩ .e true (by norm_num) (by norm_num)
      50 (by simp [resizeDivisors]),
    C7_divisors_nonzero ⟨100, 50, 0, 0⟩ .e true (by norm_num) (by norm_num)
      (100 / 50) (by simp [resizeDivisors])⟩

/-- Counterexample to C8: a zero-delta resize is not the identity on every
snapshot — on a 5×5 snapshot the 10-unit floor inflates both dimensions,
so applying the calculator (once or twice) with `(dx, dy) = (0, 0)` does
not return the original width and height. -/
theorem C8_counterexample_small_snapshot :
    calculateResize ⟨5, 5, 0, 0⟩ 0 0 .se false = ⟨10, 10, 0, 0⟩ ∧
    (10 : ℚ) ≠ 5 := by
  constructor
  · norm_num [calculateResize]
  · norm_num

/-- C8 amended: for snapshots at or above the 10-unit floor (width and
height ≥ 10), a zero-delta resize returns the original width, height, x
and y unchanged for every handle and aspect-lock flag, and hence applying
the calculator twice with a zero delta is the identity on the snapshot;
below the floor the first application inflates the dimensions to 10. -/
theorem C8_zero_delta_identity (rs : Snapshot) (handle : Handle)
    (shift : Bool) (hw : 10 ≤ rs.width) (hh : 10 ≤ rs.height) :
    calculateResize rs 0 0 handle shift =
      ⟨rs.width, rs.height, rs.elementX, rs.elementY⟩ ∧
    calculateResize
        ⟨(calculateResize rs 0 0 handle shift).newWidth,
          (calculateResize rs 0 0 handle shift).newHeight,
          (calculateResize rs 0 0 handle shift).newX,
          (calculateResize rs 0 0 handle shift).newY⟩ 0 0 handle shift =
      calculateResize rs 0 0 handle shift := by
  have hw0 : rs.width ≠ 0 := by linarith
  have hh0 : rs.height ≠ 0 := by linarith
  have e1 : max (10 : ℚ) rs.width = rs.width := max_eq_right hw
  have e2 : max (10 : ℚ) rs.height = rs.height := max_eq_right hh
  have e3 : rs.width / rs.width = 1 := div_self hw0
  have e4 : rs.height / rs.height = 1 := div_self hh0
  have e5 : rs.height * (rs.width / rs.height) = rs.width := by field_simp
  have e6 : rs.width / (rs.width / rs.height) = rs.height := by
    rw [div_div_eq_mul_div, mul_comm, mul_div_assoc, e3, mul_one]
  have h1 : calculateResize rs 0 0 handle shift =
      ⟨rs.width, rs.height, rs.elementX, rs.elementY⟩ := by
    cases shift <;> cases handle <;>
      simp [calculateResize, e1, e2, e3, e4, e5, e6]
  exact ⟨h1, by rw [h1]; exact h1⟩

/-- Witness for the amended C8 at a 100×40 snapshot with the locked n
handle. -/
theorem C8_zero_delta_identity_witness :
    calculateResize ⟨100, 40, 7, 9⟩ 0 0 .n true = ⟨100, 40, 7, 9⟩ ∧
    calculateResize
        ⟨(calculateResize ⟨100, 40, 7, 9⟩ 0 0 .n true).newWidth,
          (calculateResize ⟨100, 40, 7, 9⟩ 0 0 .n true).newHeight,
          (calculateResize ⟨100, 40, 7, 9⟩ 0 0 .n true).newX,
          (calculateResize ⟨100, 40, 7, 9⟩ 0 0 .n true).newY⟩ 0 0 .n true =
      calculateResize ⟨100, 40, 7, 9⟩ 0 0 .n true :=
  C8_zero_delta_identity ⟨100, 40, 7, 9⟩ .n true (by norm_num) (by norm_num)

namespace FlashFX

lemma corner_ratio_ge (w h a b : ℚ) (hw : 0 < w) (hh : 0 < h)
    (ha : 10 ≤ a) (hb : 10 ≤ b) :
    10 ≤ w * max (a / w) (b / h) ∧ 10 ≤ h * max (a / w) (b / h) := by
  have hwa : 10 / w ≤ max (a / w) (b / h) :=
    le_trans ((div_le_div_iff_of_pos_right hw).mpr ha) (le_max_left _ _)
  have hhb : 10 / h ≤ max (a / w) (b / h) :=
    le_trans ((div_le_div_iff_of_pos_right hh).mpr hb) (le_max_right _ _)
  have ew : w * (10 / w) = 10 := by field_simp
  have eh : h * (10 / h) = 10 := by field_simp
  constructor
  · have := mul_le_mul_of_nonneg_left hwa (le_of_lt hw)
    linarith
  · have := mul_le_mul_of_nonneg_left hhb (le_of_lt hh)
    linarith

end FlashFX

/-- Counterexample to C3: with aspect lock on an edge handle the derived
dimension has no floor — an n-handle lock-resize of a 10×100 snapshot by
dy = 90 floors the height at 10 but derives width 10 · (10/100) = 1 < 10. -/
theorem C3_counterexample_locked_edge :
    calculateResize ⟨10, 100, 0, 0⟩ 0 90 .n true = ⟨1, 10, 9 / 2, 90⟩ ∧
    (calculateResize ⟨10, 100, 0, 0⟩ 0 90 .n true).newWidth < 10 := by
  constructor
  · norm_num [calculateResize]
  · norm_num [calculateResize]

/-- C3 amended: for every snapshot at or above the floor (width, height
≥ 10), every pointer delta and every handle, both outputs are ≥ 10
without aspect lock, and with aspect lock on the four corner handles;
with aspect lock on an edge handle the derived dimension can drop below
10. -/
theorem C3_min_size_floor (rs : Snapshot) (dx dy : ℚ) (handle : Handle)
    (hw : 10 ≤ rs.width) (hh : 10 ≤ rs.height) :
    (10 ≤ (calculateResize rs dx dy handle false).newWidth ∧
      10 ≤ (calculateResize rs dx dy handle false).newHeight) ∧
    (10 ≤ (calculateResize rs dx dy .nw true).newWidth ∧
      10 ≤ (calculateResize rs dx dy .nw true).newHeight) ∧
    (10 ≤ (calculateResize rs dx dy .ne true).newWidth ∧
      10 ≤ (calculateResize rs dx dy .ne true).newHeight) ∧
    (10 ≤ (calculateResize rs dx dy .sw true).newWidth ∧
      10 ≤ (calculateResize rs dx dy .sw true).newHeight) ∧
    (10 ≤ (calculateResize rs dx dy .se true).newWidth ∧
      10 ≤ (calculateResize rs dx dy .se true).newHeight) := by
  have hw0 : (0 : ℚ) < rs.width := by linarith
  have hh0 : (0 : ℚ) < rs.height := by linarith
  refine ⟨?_, ?_, ?_, ?_, ?_⟩
  · cases handle <;> refine ⟨?_, ?_⟩ <;>
      simp only [calculateResize, Bool.false_eq_true, if_false] <;>
      first | exact le_max_left _ _ | exact hw | exact hh
  all_goals simp only [calculateResize, if_true]
  all_goals exact corner_ratio_ge rs.width rs.height _ _ hw0 hh0 (le_max_left _ _) (le_max_left _ _)

/-- Witness for the amended C3 at a 100×40 snapshot with delta (−95, 33). -/
theorem C3_min_size_floor_witness :
    (10 ≤ (calculateResize ⟨100, 40, 0, 0⟩ (-95) 33 .w false).newWidth ∧
      10 ≤ (calculateResize ⟨100, 40, 0, 0⟩ (-95) 33 .w false).newHeight) ∧
    (10 ≤ (calculateResize ⟨100, 40, 0, 0⟩ (-95) 33 .nw true).newWidth ∧
      10 ≤ (calculateResize ⟨100, 40, 0, 0⟩ (-95) 33 .nw true).newHeight) ∧
    (10 ≤ (calculateResize ⟨100, 40, 0, 0⟩ (-95) 33 .ne true).newWidth ∧
      10 ≤ (calculateResize ⟨100, 40, 0, 0⟩ (-95) 33 .ne true).newHeight) ∧
    (10 ≤ (calculateResize ⟨100, 40, 0, 0⟩ (-95) 33 .sw true).newWidth ∧
      10 ≤ (calculateResize ⟨100, 40, 0, 0⟩ (-95) 33 .sw true).newHeight) ∧
    (10 ≤ (calculateResize ⟨100, 40, 0, 0⟩ (-95) 33 .se true).newWidth ∧
      10 ≤ (calculateResize ⟨100, 40, 0, 0⟩ (-95) 33 .se true).newHeight) :=
  C3_min_size_floor ⟨100, 40, 0, 0⟩ (-95) 33 .w (by norm_num) (by norm_num)

namespace FlashFX

lemma countHoriz_append (gs hs : List SnapGuide) :
    countHoriz (gs ++ hs) = countHoriz gs + countHoriz hs := by
  simp [countHoriz, List.filter_append]

lemma countVert_append (gs hs : List SnapGuide) :
    countVert (gs ++ hs) = countVert gs + countVert hs := by
  simp [countVert, List.filter_append]

lemma siblingSnapY_counts (mh th sy : ℚ) (idx : ℕ) (el : Elem) :
    countHoriz (optGuide (siblingSnapY mh th sy idx el)) ≤ 1 ∧
    countVert (optGuide (siblingSnapY mh th sy idx el)) = 0 := by
  simp only [siblingSnapY, optGuide]
  split_ifs <;> simp [countHoriz, countVert]

lemma siblingSnapX_counts (mw th sx : ℚ) (idx : ℕ) (el : Elem) :
    countVert (optGuide (siblingSnapX mw th sx idx el)) ≤ 1 ∧
    countHoriz (optGuide (siblingSnapX mw th sx idx el)) = 0 := by
  simp only [siblingSnapX, optGuide]
  split_ifs <;> simp [countHoriz, countVert]

lemma siblingSnapY_top (mh th sy : ℚ) (idx : ℕ) (el : Elem)
    (h : |sy - el.y| < th) :
    siblingSnapY mh th sy idx el =
      some (el.y, ⟨"element-" ++ toString idx ++ "-top", .horizontal,
        el.y, edgeColor⟩) := by
  unfold siblingSnapY
  simp [getElementBounds, h]

lemma siblingSnapX_left (mw th sx : ℚ) (idx : ℕ) (el : Elem)
    (h : |sx - el.x| < th) :
    siblingSnapX mw th sx idx el =
      some (el.x, ⟨"element-" ++ toString idx ++ "-left", .vertical,
        el.x, edgeColor⟩) := by
  unfold siblingSnapX
  simp [getElementBounds, h]

end FlashFX

set_option maxHeartbeats 2000000 in
/-- Counterexample to C2: snap sources are re-evaluated per sibling, so a
later sibling overrides an axis already snapped by an earlier one.  With
sibling 0 at left = 10 and sibling 1 at left = 15, a call at candidate
x = 13 (zoom 1, threshold 8) first snaps x to 10, then sibling 1 re-snaps
it to 15: two X-axis snap sources fire in one call and the final x is the
later target, not the first match. -/
theorem C2_counterexample_later_sibling_overrides :
    detectSnaps [⟨"a", 10, 1000, 50, 50, true⟩, ⟨"b", 15, 1000, 50, 50, true⟩]
        (1920, 1080) 1 (some (3840, 2160)) ⟨"m", 0, 0, 50, 50, true⟩ 13 500 true
      = ⟨some 15, none,
          [⟨"element-0-left", .vertical, 10, edgeColor⟩,
           ⟨"element-1-left", .vertical, 15, edgeColor⟩]⟩ ∧
    countVert
        [⟨"element-0-left", .vertical, 10, edgeColor⟩,
         ⟨"element-1-left", .vertical, 15, edgeColor⟩] = 2 ∧
    (15 : ℚ) ≠ 10 := by
  refine ⟨?_, by rfl, by norm_num⟩
  norm_num [detectSnaps, snapThreshold, SNAP_THRESHOLD, List.filter]
  simp
  norm_num [siblingStep, siblingSnapY, siblingSnapX, optGuide,
    getElementBounds, List.enumFrom, List.foldl, edgeColor, centerColor]
  decide

/-- C2 amended: the fixed priority order with edge-to-edge before center
and first-match-wins holds within each single sibling's per-axis check
chain — one `siblingStep` appends at most one horizontal and one vertical
guide, and when the first edge candidate (top-to-top, resp. left-to-left)
is within threshold the axis snaps to that edge target even if the center
candidate also matches — but sources are re-evaluated across the canvas
checks and each successive sibling, and a later matching source
overrides the axis value within the same call. -/
theorem C2_per_sibling_priority (mw mh th : ℚ) (acc : SnapAcc) (idx : ℕ)
    (el : Elem) :
    countHoriz (siblingStep mw mh th acc (idx, el)).guides ≤
      countHoriz acc.guides + 1 ∧
    countVert (siblingStep mw mh th acc (idx, el)).guides ≤
      countVert acc.guides + 1 ∧
    (|acc.sy - el.y| < th → (siblingStep mw mh th acc (idx, el)).sy = el.y) ∧
    (|acc.sx - el.x| < th → (siblingStep mw mh th acc (idx, el)).sx = el.x) := by
  refine ⟨?_, ?_, fun h => ?_, fun h => ?_⟩
  · simp only [siblingStep, countHoriz_append]
    have h1 := (siblingSnapY_counts mh th acc.sy idx el).1
    have h2 := (siblingSnapX_counts mw th acc.sx idx el).2
    omega
  · simp only [siblingStep, countVert_append]
    have h1 := (siblingSnapY_counts mh th acc.sy idx el).2
    have h2 := (siblingSnapX_counts mw th acc.sx idx el).1
    omega
  · simp [siblingStep, siblingSnapY_top mh th acc.sy idx el h]
  · simp [siblingStep, siblingSnapX_left mw th acc.sx idx el h]

/-- Witness for the amended C2: a sibling at (3, 4) snaps the moving
element's axes to exactly its top and left edges. -/
theorem C2_per_sibling_priority_witness :
    (siblingStep 50 50 8 ⟨0, 0, []⟩ (0, ⟨"a", 3, 4, 20, 20, true⟩)).sy = 4 ∧
    (siblingStep 50 50 8 ⟨0, 0, []⟩ (0, ⟨"a", 3, 4, 20, 20, true⟩)).sx = 3 :=
  ⟨(C2_per_sibling_priority 50 50 8 ⟨0, 0, []⟩ 0
      ⟨"a", 3, 4, 20, 20, true⟩).2.2.1 (by norm_num),
    (C2_per_sibling_priority 50 50 8 ⟨0, 0, []⟩ 0
      ⟨"a", 3, 4, 20, 20, true⟩).2.2.2 (by norm_num)⟩

set_option maxHeartbeats 2000000 in
/-- C9: the effective snap threshold equals `SNAP_THRESHOLD / zoom` =
8/zoom canvas units, and at zoom 2 it is half the zoom-1 threshold; and
in a `detectSnaps` call (no siblings, canvas size provided) the
canvas-left-edge snap fires — its guide is emitted — iff the candidate's
pixel delta to the edge is strictly below `8 / zoom` canvas units. -/
theorem C9_threshold_zoom_invariant :
    (∀ z : ℚ, snapThreshold z = 8 / z) ∧
    snapThreshold 2 = snapThreshold 1 / 2 ∧
    (∀ (z cx cy cw ch nx ny : ℚ) (el : Elem),
      ((⟨"canvas-left", .vertical, 0, edgeColor⟩ : SnapGuide) ∈
          (detectSnaps [] (cx, cy) z (some (cw, ch)) el nx ny true).guides) ↔
        |nx| < snapThreshold z) := by
  refine ⟨fun z => rfl, by norm_num [snapThreshold, SNAP_THRESHOLD], ?_⟩
  intro z cx cy cw ch nx ny el
  simp only [detectSnaps, Bool.not_true, Bool.false_eq_true, if_false,
    List.filter_nil, List.enum_nil, List.foldl_nil]
  split_ifs <;> simp_all
